import Mathlib

/-!
Shallow embedding of the BEATPAX token-ledger core.

The definitions below are translated from src/models.py (table rows) and
src/app.py (route-handler business logic).  Database tables are lists of
rows; ORM object mutation becomes replacement of the matching rows; the
request-scoped session is modelled by returning the committed database
state (paths that return without a commit return the original state,
because the request teardown rolls the session back).  Presentation-only
columns (genre, tags, cover urls, timestamps other than the download
timestamp, ...) are omitted; the download timestamp is an abstract tick
passed in by the caller.
-/

namespace Beatpax

/-- Row of the wallets table (models.py, class Wallet).  The balance column
is a signed integer; the spend/earn totals are only ever incremented. -/
structure Wallet where
  user_id : Nat
  balance : Int
  total_spent : Nat
  total_earned : Nat
deriving Repr, DecidableEq

/-- Row of the transactions table (models.py, class Transaction).  The log
is append-only; amount is positive for credits and negative for debits. -/
structure Transaction where
  user_id : Nat
  transaction_type : String
  amount : Int
  balance_after : Int
  reference_type : Option String
  reference_id : Option Nat
  description : String
deriving Repr, DecidableEq

/-- Row of the beats table (models.py, class Beat). -/
structure Beat where
  id : Nat
  title : String
  creator_id : Nat
  sound_pack_id : Option Nat
  audio_url : String
  token_cost : Nat
  play_count : Nat
  download_count : Nat
  is_active : Bool
deriving Repr, DecidableEq

/-- Row of the user_beat_library table (models.py, class UserBeatLibrary);
one row per (user, beat) ownership grant. -/
structure LibraryEntry where
  user_id : Nat
  beat_id : Nat
  tokens_spent : Nat
  downloaded_at : Option Nat
  download_count : Nat
deriving Repr, DecidableEq

/-- Row of the sound_packs table (models.py, class SoundPack). -/
structure SoundPack where
  id : Nat
  name : String
  creator_id : Nat
  token_cost : Nat
  track_count : Nat
  download_count : Nat
  is_active : Bool
deriving Repr, DecidableEq

/-- Row of the curated_packs table (models.py, class CuratedPack). -/
structure CuratedPack where
  id : Nat
  user_id : Nat
  name : String
  share_code : String
  is_free : Bool
  view_count : Nat
  download_count : Nat
  is_active : Bool
deriving Repr, DecidableEq

/-- Row of the curated_pack_tracks table (models.py, class CuratedPackTrack). -/
structure CuratedPackTrack where
  curated_pack_id : Nat
  beat_id : Nat
  track_order : Nat
deriving Repr, DecidableEq

/-- The relational store: one list of rows per table touched by the
ledger core. -/
structure DB where
  wallets : List Wallet
  transactions : List Transaction
  beats : List Beat
  library : List LibraryEntry
  sound_packs : List SoundPack
  curated_packs : List CuratedPack
  curated_pack_tracks : List CuratedPackTrack
deriving Repr, DecidableEq

/-- Mutation of the single wallet row the ORM query returned: every row of
the given user is rewritten with f (the user_id column is unique, so at
most one row actually matches). -/
def updateWallets (ws : List Wallet) (user_id : Nat) (f : Wallet → Wallet) : List Wallet :=
  ws.map fun w => if w.user_id == user_id then f w else w

/-- Library-row mutation used by the already-owned download path
(app.py lines 963-967): bump the download counter and refresh the
download timestamp of the (user, beat) row. -/
def bumpLibraryEntry (lib : List LibraryEntry) (user_id beat_id now : Nat) : List LibraryEntry :=
  lib.map fun e =>
    if e.user_id == user_id && e.beat_id == beat_id then
      { e with download_count := e.download_count + 1, downloaded_at := some now }
    else e

/-- Increment the download counter of one beat row (app.py line 1032). -/
def bumpBeatDownloads (bs : List Beat) (beat_id : Nat) : List Beat :=
  bs.map fun b => if b.id == beat_id then { b with download_count := b.download_count + 1 } else b

/-- Increment the download counter of one curated-pack row
(app.py lines 1718 and 1791). -/
def bumpCuratedDownloads (ps : List CuratedPack) (pack_id : Nat) : List CuratedPack :=
  ps.map fun p => if p.id == pack_id then { p with download_count := p.download_count + 1 } else p

/-- get_or_create_wallet (app.py lines 284-301): look the wallet up by
user id; on a miss, create it with the 50-token signup bonus and append
the bonus transaction, committing at once.  Returns the wallet together
with the committed state. -/
def get_or_create_wallet (db : DB) (user_id : Nat) : Wallet × DB :=
  match db.wallets.find? (fun w => w.user_id == user_id) with
  | some w => (w, db)
  | none =>
      let w : Wallet := { user_id := user_id, balance := 50, total_spent := 0, total_earned := 0 }
      let bonus : Transaction :=
        { user_id := user_id, transaction_type := "bonus", amount := 50, balance_after := 50,
          reference_type := some "signup_bonus", reference_id := none,
          description := "Welcome bonus tokens" }
      (w, { db with wallets := db.wallets ++ [w], transactions := db.transactions ++ [bonus] })

/-- Outcome of the single-beat download endpoint (app.py beatpax_download). -/
inductive BeatDownloadResult where
  | beatNotFound : BeatDownloadResult
  | alreadyOwned (audio_url : String) : BeatDownloadResult
  | insufficientTokens (required : Nat) (balance : Int) : BeatDownloadResult
  | purchased (audio_url : String) (tokens_spent : Nat) (new_balance : Int) : BeatDownloadResult
deriving Repr, DecidableEq

/-- beatpax_download (app.py lines 947-1049), the single-item purchase.
Notable source behaviours kept: the already-owned path commits before any
wallet is read; the cost is the fixed literal 1 (line 976); the creator
share is max(1, int(token_cost * 0.8)) (line 1004) - at the fixed cost 1
the float truncation int(0.8) = 0 agrees with the natural floor division
used here; the creator wallet is fetched from the session after the buyer
debit, so a creator buying an own beat sees the debited wallet; the
response reads new_balance from the live buyer wallet after the creator
credit. -/
def beatpax_download (db : DB) (user_id beat_id now : Nat) : BeatDownloadResult × DB :=
  match db.beats.find? (fun b => b.id == beat_id) with
  | none => (.beatNotFound, db)
  | some beat =>
    if beat.is_active = false then (.beatNotFound, db)
    else
      match db.library.find? (fun e => e.user_id == user_id && e.beat_id == beat_id) with
      | some _ =>
          (.alreadyOwned beat.audio_url,
           { db with library := bumpLibraryEntry db.library user_id beat_id now })
      | none =>
          let token_cost : Nat := 1
          let wdb := get_or_create_wallet db user_id
          let wallet := wdb.1
          let db1 := wdb.2
          if wallet.balance < (token_cost : Int) then
            (.insufficientTokens token_cost wallet.balance, db1)
          else
            let db2 := { db1 with
              wallets := updateWallets db1.wallets user_id
                (fun w => { w with balance := w.balance - (token_cost : Int),
                                   total_spent := w.total_spent + token_cost }) }
            let buyer_tx : Transaction :=
              { user_id := user_id, transaction_type := "spend",
                amount := -(token_cost : Int), balance_after := wallet.balance - (token_cost : Int),
                reference_type := some "beat_download", reference_id := some beat_id,
                description := "Downloaded: " ++ beat.title }
            let db3 := { db2 with transactions := db2.transactions ++ [buyer_tx] }
            let creator_earnings : Nat := max 1 (token_cost * 8 / 10)
            let cwdb := get_or_create_wallet db3 beat.creator_id
            let creator_wallet := cwdb.1
            let db4 := cwdb.2
            let db5 := { db4 with
              wallets := updateWallets db4.wallets beat.creator_id
                (fun w => { w with balance := w.balance + (creator_earnings : Int),
                                   total_earned := w.total_earned + creator_earnings }) }
            let creator_tx : Transaction :=
              { user_id := beat.creator_id, transaction_type := "earn",
                amount := (creator_earnings : Int),
                balance_after := creator_wallet.balance + (creator_earnings : Int),
                reference_type := some "beat_sale", reference_id := some beat_id,
                description := "Sale: " ++ beat.title }
            let db6 := { db5 with transactions := db5.transactions ++ [creator_tx] }
            let entry : LibraryEntry :=
              { user_id := user_id, beat_id := beat_id, tokens_spent := token_cost,
                downloaded_at := some now, download_count := 1 }
            let db7 := { db6 with library := db6.library ++ [entry] }
            let db8 := { db7 with beats := bumpBeatDownloads db7.beats beat_id }
            let final_balance : Int :=
              match db8.wallets.find? (fun w => w.user_id == user_id) with
              | some w => w.balance
              | none => 0
            (.purchased beat.audio_url token_cost final_balance, db8)

/-- The fixed token-package catalog of purchase_tokens (app.py lines 1074-1080);
the display price is ignored by the ledger. -/
def tokenPackage : String → Option Nat
  | "100" => some 100
  | "250" => some 250
  | "500" => some 500
  | "1000" => some 1000
  | _ => none

/-- Outcome of the token-purchase stub endpoint. -/
inductive TokenPurchaseResult where
  | invalidPackage : TokenPurchaseResult
  | purchased (tokens_added : Nat) (new_balance : Int) : TokenPurchaseResult
deriving Repr, DecidableEq

/-- purchase_tokens (app.py lines 1066-1111): credit the package size to the
wallet of the user and append one purchase transaction.  Only the balance
column moves; the spend/earn totals are untouched by this endpoint. -/
def purchase_tokens (db : DB) (user_id : Nat) (package : String) : TokenPurchaseResult × DB :=
  match tokenPackage package with
  | none => (.invalidPackage, db)
  | some tokens =>
      let wdb := get_or_create_wallet db user_id
      let wallet := wdb.1
      let db1 := wdb.2
      let db2 := { db1 with
        wallets := updateWallets db1.wallets user_id
          (fun w => { w with balance := w.balance + (tokens : Int) }) }
      let tx : Transaction :=
        { user_id := user_id, transaction_type := "purchase", amount := (tokens : Int),
          balance_after := wallet.balance + (tokens : Int),
          reference_type := some "token_purchase", reference_id := none,
          description := "Purchased " ++ toString tokens ++ " tokens" }
      (.purchased tokens (wallet.balance + (tokens : Int)),
       { db2 with transactions := db2.transactions ++ [tx] })

/-- Outcome of the two delete endpoints. -/
inductive DeleteResult where
  | targetNotFound : DeleteResult
  | forbidden : DeleteResult
  | deleted : DeleteResult
deriving Repr, DecidableEq

/-- Number of active beats of one sound pack, the recount query of
delete_track (app.py lines 1342-1344). -/
def countActivePackTracks (bs : List Beat) (pack_id : Nat) : Nat :=
  (bs.filter (fun b => b.sound_pack_id == some pack_id && b.is_active)).length

/-- delete_track (app.py lines 1321-1356): soft-delete one beat and, when
the beat sits in a sound pack, rewrite the stored track_count of that pack
with a recount of the still-active beats (the recount runs after the
soft delete, which the autoflushing session makes visible to the query). -/
def delete_track (db : DB) (user_id track_id : Nat) : DeleteResult × DB :=
  match db.beats.find? (fun b => b.id == track_id) with
  | none => (.targetNotFound, db)
  | some track =>
    if track.creator_id ≠ user_id then (.forbidden, db)
    else
      let beats1 := db.beats.map (fun b => if b.id == track_id then { b with is_active := false } else b)
      match track.sound_pack_id with
      | none => (.deleted, { db with beats := beats1 })
      | some pid =>
        match db.sound_packs.find? (fun p => p.id == pid) with
        | none => (.deleted, { db with beats := beats1 })
        | some _ =>
          let cnt := countActivePackTracks beats1 pid
          (.deleted, { db with beats := beats1,
                               sound_packs := db.sound_packs.map
                                 (fun p => if p.id == pid then { p with track_count := cnt } else p) })

/-- delete_soundpack (app.py lines 1251-1280): soft-delete the pack and
every beat inside it; the stored track_count of the pack is NOT rewritten
on this path. -/
def delete_soundpack (db : DB) (user_id pack_id : Nat) : DeleteResult × DB :=
  match db.sound_packs.find? (fun p => p.id == pack_id) with
  | none => (.targetNotFound, db)
  | some pack =>
    if pack.creator_id ≠ user_id then (.forbidden, db)
    else
      (.deleted,
       { db with
         sound_packs := db.sound_packs.map
           (fun p => if p.id == pack_id then { p with is_active := false } else p),
         beats := db.beats.map
           (fun b => if b.sound_pack_id == some pack_id then { b with is_active := false } else b) })

/-- The derived pack price of SoundPack.to_dict (models.py line 95): the
Python expression (self.track_count if self.track_count else
len([t for t in self.tracks if t.is_active])) uses the stored track_count
column whenever it is non-zero and only falls back to counting the active
child beats when the stored column is zero or NULL. -/
def packCalculatedTokenCost (db : DB) (pack : SoundPack) : Nat :=
  if pack.track_count ≠ 0 then pack.track_count
  else countActivePackTracks db.beats pack.id

/-- Track-id list of a curated pack as assembled by download_curated_pack
(app.py lines 1705-1711): all beat ids of the pack, narrowed to the
requested ids when the request carries a non-empty track_ids list (the
Python truthiness test treats a missing key, None and an empty list
alike). -/
def curatedTrackIds (db : DB) (pack_id : Nat) (requested_track_ids : List Nat) : List Nat :=
  let all_ids := (db.curated_pack_tracks.filter (fun t => t.curated_pack_id == pack_id)).map
    (fun t => t.beat_id)
  if requested_track_ids.isEmpty then all_ids
  else all_ids.filter (fun tid => requested_track_ids.contains tid)

/-- The ids the buyer does not own yet, the tracks_to_download loop of
download_curated_pack (app.py lines 1743-1749). -/
def unownedOf (db : DB) (user_id : Nat) (ids : List Nat) : List Nat :=
  ids.filter (fun tid =>
    (db.library.find? (fun e => e.user_id == user_id && e.beat_id == tid)).isNone)

/-- The wallet object download_curated_pack works with (app.py lines
1737-1740): the stored row when one exists, else a fresh 50-token wallet
that is only added to the session (no bonus transaction on this path) and
therefore only persists when the final commit runs. -/
def curatedWallet (db : DB) (user_id : Nat) : Wallet :=
  match db.wallets.find? (fun w => w.user_id == user_id) with
  | some w => w
  | none => { user_id := user_id, balance := 50, total_spent := 0, total_earned := 0 }

/-- Outcome of the curated-pack download endpoint. -/
inductive CuratedDownloadResult where
  | packNotFound : CuratedDownloadResult
  | noTracks : CuratedDownloadResult
  | freeTracks (track_ids : List Nat) : CuratedDownloadResult
  | loginRequired : CuratedDownloadResult
  | alreadyOwnedAll : CuratedDownloadResult
  | insufficientTokens (cost : Nat) (balance : Int) : CuratedDownloadResult
  | purchased (tracks_added : Nat) (tokens_spent : Nat) (new_balance : Int) : CuratedDownloadResult
deriving Repr, DecidableEq

/-- download_curated_pack (app.py lines 1693-1805).  Source behaviours
kept: the free branch filters the returned beats on is_active but the paid
branch charges every unowned id of the pack with no is_active filter; the
already-owned-all and insufficient-tokens returns run no commit, so the
pending wallet creation of lines 1738-1740 is rolled back with the session
and the state is unchanged; on the paid success the wallet is debited once
by the whole cost before the loop, and every per-track spend transaction
snapshots balance_after from the already fully debited wallet. -/
def download_curated_pack (db : DB) (share_code : String) (requested_track_ids : List Nat)
    (auth : Option Nat) : CuratedDownloadResult × DB :=
  match db.curated_packs.find? (fun p => p.share_code == share_code && p.is_active) with
  | none => (.packNotFound, db)
  | some pack =>
    let track_ids := curatedTrackIds db pack.id requested_track_ids
    if track_ids.isEmpty then (.noTracks, db)
    else if pack.is_free then
      let tracks := db.beats.filter (fun b => track_ids.contains b.id && b.is_active)
      (.freeTracks (tracks.map (fun b => b.id)),
       { db with curated_packs := bumpCuratedDownloads db.curated_packs pack.id })
    else
      match auth with
      | none => (.loginRequired, db)
      | some user_id =>
        let wallet := curatedWallet db user_id
        let tracks_to_download := unownedOf db user_id track_ids
        if tracks_to_download.isEmpty then (.alreadyOwnedAll, db)
        else
          let total_cost := tracks_to_download.length
          if wallet.balance < (total_cost : Int) then
            (.insufficientTokens total_cost wallet.balance, db)
          else
            let new_balance := wallet.balance - (total_cost : Int)
            let wallets1 :=
              match db.wallets.find? (fun w => w.user_id == user_id) with
              | some _ => updateWallets db.wallets user_id
                  (fun w => { w with balance := w.balance - (total_cost : Int),
                                     total_spent := w.total_spent + total_cost })
              | none => db.wallets ++
                  [{ wallet with balance := new_balance,
                                 total_spent := wallet.total_spent + total_cost }]
            let new_entries := tracks_to_download.map (fun tid =>
              ({ user_id := user_id, beat_id := tid, tokens_spent := 1,
                 downloaded_at := none, download_count := 0 } : LibraryEntry))
            let new_txs := tracks_to_download.map (fun tid =>
              ({ user_id := user_id, transaction_type := "spend", amount := -1,
                 balance_after := new_balance,
                 reference_type := some "curated_pack_download", reference_id := some tid,
                 description := "Downloaded from curated pack: " ++ pack.name } : Transaction))
            (.purchased tracks_to_download.length total_cost new_balance,
             { db with wallets := wallets1,
                       library := db.library ++ new_entries,
                       transactions := db.transactions ++ new_txs,
                       curated_packs := bumpCuratedDownloads db.curated_packs pack.id })

/-- One inbound purchase request, for reasoning over sequences of
operations. -/
inductive Op where
  | beatDownload (user_id beat_id now : Nat) : Op
  | curatedDownload (share_code : String) (requested_track_ids : List Nat) (auth : Option Nat) : Op
  | tokenPurchase (user_id : Nat) (package : String) : Op
deriving Repr

/-- State reached after one request. -/
def step (db : DB) : Op → DB
  | .beatDownload u b n => (beatpax_download db u b n).2
  | .curatedDownload sc req auth => (download_curated_pack db sc req auth).2
  | .tokenPurchase u pkg => (purchase_tokens db u pkg).2

/-- State reached after a sequence of requests. -/
def run (db : DB) (ops : List Op) : DB := ops.foldl step db

/-- Every stored wallet balance is non-negative. -/
abbrev WalletsNonneg (db : DB) : Prop := ∀ w ∈ db.wallets, 0 ≤ w.balance

/-- The user_id column of the wallets table is unique (models.py line 171,
unique=True). -/
abbrev UniqueWallets (db : DB) : Prop :=
  db.wallets.Pairwise (fun w1 w2 => w1.user_id ≠ w2.user_id)

/-- The id column of the beats table is unique (primary key). -/
abbrev UniqueBeatIds (db : DB) : Prop :=
  db.beats.Pairwise (fun b1 b2 => b1.id ≠ b2.id)

/-- admin_delete_content (app.py lines 2291-2327) restricted to the beat
content type: soft-delete one beat; unlike delete_track, no pack recount
happens on this path. -/
def admin_delete_beat (db : DB) (beat_id : Nat) : DeleteResult × DB :=
  match db.beats.find? (fun b => b.id == beat_id) with
  | none => (.targetNotFound, db)
  | some _ =>
      (.deleted,
       { db with beats := db.beats.map (fun b =>
           if b.id == beat_id then { b with is_active := false } else b) })

/-! Sample data used by the concrete witnesses and counterexamples:
two active beats by creator 5 and a curated pack with share code c
holding both of them. -/

def sampleDB : DB :=
  { wallets := [{ user_id := 7, balance := 50, total_spent := 0, total_earned := 0 }],
    transactions := [],
    beats := [{ id := 1, title := "a", creator_id := 5, sound_pack_id := none, audio_url := "u1",
                token_cost := 1, play_count := 0, download_count := 0, is_active := true },
              { id := 2, title := "b", creator_id := 5, sound_pack_id := none, audio_url := "u2",
                token_cost := 1, play_count := 0, download_count := 0, is_active := true }],
    library := [],
    sound_packs := [],
    curated_packs := [{ id := 1, user_id := 9, name := "P", share_code := "c", is_free := false,
                        view_count := 0, download_count := 0, is_active := true }],
    curated_pack_tracks := [{ curated_pack_id := 1, beat_id := 1, track_order := 0 },
                            { curated_pack_id := 1, beat_id := 2, track_order := 1 }] }

/-- Sample state in which user 7 already owns both tracks of the pack. -/
def sampleOwnedDB : DB :=
  { sampleDB with
    library := [{ user_id := 7, beat_id := 1, tokens_spent := 1,
                  downloaded_at := none, download_count := 0 },
                { user_id := 7, beat_id := 2, tokens_spent := 1,
                  downloaded_at := none, download_count := 0 }] }

/-- Sample state in which the buyer wallet is empty. -/
def samplePoorDB : DB :=
  { sampleDB with wallets := [{ user_id := 7, balance := 0, total_spent := 0, total_earned := 0 }] }

/-- Sample state with a buyer wallet (balance 50) and a creator wallet
(balance 3). -/
def sampleTwoWalletDB : DB :=
  { sampleDB with
    wallets := [{ user_id := 7, balance := 50, total_spent := 0, total_earned := 0 },
                { user_id := 5, balance := 3, total_spent := 0, total_earned := 0 }] }

/-- Sample state with the curated pack flagged free and user 7 holding a
wallet. -/
def sampleFreeDB : DB :=
  { sampleDB with
    curated_packs := [{ id := 1, user_id := 9, name := "P", share_code := "c", is_free := true,
                        view_count := 0, download_count := 0, is_active := true }] }

/-- Sample state in which beat 1 has been soft-deleted but still sits in
the paid curated pack. -/
def sampleInactiveDB : DB :=
  { sampleDB with
    beats := [{ id := 1, title := "a", creator_id := 5, sound_pack_id := none, audio_url := "u1",
                token_cost := 1, play_count := 0, download_count := 0, is_active := false },
              { id := 2, title := "b", creator_id := 5, sound_pack_id := none, audio_url := "u2",
                token_cost := 1, play_count := 0, download_count := 0, is_active := true }] }

/-- Sample state in which beat 1 has been soft-deleted and the curated
pack is free. -/
def sampleFreeInactiveDB : DB :=
  { sampleInactiveDB with
    curated_packs := [{ id := 1, user_id := 9, name := "P", share_code := "c", is_free := true,
                        view_count := 0, download_count := 0, is_active := true }] }

/-- Sample state for the sound-pack price claims: pack 1 with two active
child beats and stored track_count 2. -/
def samplePackDB : DB :=
  { wallets := [],
    transactions := [],
    beats := [{ id := 1, title := "a", creator_id := 5, sound_pack_id := some 1, audio_url := "u1",
                token_cost := 1, play_count := 0, download_count := 0, is_active := true },
              { id := 2, title := "b", creator_id := 5, sound_pack_id := some 1, audio_url := "u2",
                token_cost := 1, play_count := 0, download_count := 0, is_active := true }],
    library := [],
    sound_packs := [{ id := 1, name := "SP", creator_id := 5, token_cost := 2, track_count := 2,
                      download_count := 0, is_active := true }],
    curated_packs := [],
    curated_pack_tracks := [] }

/-! Supporting lemmas about row lookup and row rewriting. -/

lemma find?_map_pres {α : Type} {g : α → α} {p : α → Bool} (hg : ∀ a, p (g a) = p a) :
    ∀ l : List α, (l.map g).find? p = (l.find? p).map g
  | [] => by simp
  | a :: t => by
    rw [List.map_cons]
    by_cases h : p a = true
    · rw [List.find?_cons_of_pos _ (by rw [hg]; exact h), List.find?_cons_of_pos _ h,
        Option.map_some']
    · rw [List.find?_cons_of_neg _ (by rw [hg]; exact h), List.find?_cons_of_neg _ h,
        find?_map_pres hg t]

lemma updateWallets_pred_eq {uid : Nat} {f : Wallet → Wallet}
    (hf : ∀ w, (f w).user_id = w.user_id) (uid2 : Nat) :
    ∀ w : Wallet, ((if w.user_id == uid then f w else w).user_id == uid2) = (w.user_id == uid2) := by
  intro w
  by_cases h : w.user_id == uid <;> simp [h, hf]

lemma updateWallets_find?_self {ws : List Wallet} {uid : Nat} {f : Wallet → Wallet} {w0 : Wallet}
    (hf : ∀ w, (f w).user_id = w.user_id)
    (h : ws.find? (fun w => w.user_id == uid) = some w0) :
    (updateWallets ws uid f).find? (fun w => w.user_id == uid) = some (f w0) := by
  have hp := List.find?_some h
  rw [updateWallets, find?_map_pres (updateWallets_pred_eq hf uid), h, Option.map_some']
  simp only [hp, if_true]

lemma updateWallets_find?_other {ws : List Wallet} {uid uid2 : Nat} {f : Wallet → Wallet}
    {w0 : Wallet} (hf : ∀ w, (f w).user_id = w.user_id) (hne : w0.user_id ≠ uid)
    (h : ws.find? (fun w => w.user_id == uid2) = some w0) :
    (updateWallets ws uid f).find? (fun w => w.user_id == uid2) = some w0 := by
  rw [updateWallets, find?_map_pres (updateWallets_pred_eq hf uid2), h, Option.map_some']
  simp only [beq_iff_eq, hne, if_false]

lemma eq_of_find?_unique {ws : List Wallet} {uid : Nat} {w0 : Wallet}
    (hu : ws.Pairwise (fun a b => a.user_id ≠ b.user_id))
    (hf : ws.find? (fun w => w.user_id == uid) = some w0) :
    ∀ w ∈ ws, w.user_id = uid → w = w0 := by
  induction ws with
  | nil => simp at hf
  | cons a t ih =>
    rw [List.pairwise_cons] at hu
    intro w hw hwid
    rcases List.mem_cons.mp hw with rfl | hwt
    · rw [List.find?_cons_of_pos _ (by simp [hwid])] at hf
      exact Option.some.inj hf
    · by_cases hpa : ((fun w : Wallet => w.user_id == uid) a) = true
      · rw [@List.find?_cons_of_pos Wallet (fun w => w.user_id == uid) a t hpa] at hf
        obtain rfl := Option.some.inj hf
        exact absurd hwid (fun hh => hu.1 w hwt (by simp only [beq_iff_eq] at hpa; rw [hpa, hh]))
      · rw [@List.find?_cons_of_neg Wallet (fun w => w.user_id == uid) a t hpa] at hf
        exact ih hu.2 hf w hwt hwid

lemma nonneg_updateWallets {ws : List Wallet} {uid : Nat} {f : Wallet → Wallet}
    (h : ∀ w ∈ ws, 0 ≤ w.balance)
    (hf : ∀ w ∈ ws, 0 ≤ w.balance → w.user_id = uid → 0 ≤ (f w).balance) :
    ∀ w ∈ updateWallets ws uid f, 0 ≤ w.balance := by
  intro w hw
  rw [updateWallets, List.mem_map] at hw
  obtain ⟨w0, hw0, rfl⟩ := hw
  by_cases hc : (w0.user_id == uid) = true
  · simpa [hc] using hf w0 hw0 (h w0 hw0) (by simpa using hc)
  · simpa [hc] using h w0 hw0

lemma unique_updateWallets {ws : List Wallet} {uid : Nat} {f : Wallet → Wallet}
    (hf : ∀ w, (f w).user_id = w.user_id)
    (hu : ws.Pairwise (fun a b => a.user_id ≠ b.user_id)) :
    (updateWallets ws uid f).Pairwise (fun a b => a.user_id ≠ b.user_id) := by
  refine List.Pairwise.map _ (fun a b hab => ?_) hu
  by_cases ha : (a.user_id == uid) = true <;> by_cases hb : (b.user_id == uid) = true <;>
    simp [ha, hb, hf, hab]

lemma unique_append_wallet {ws : List Wallet} {w : Wallet} {uid : Nat} (hwid : w.user_id = uid)
    (hn : ws.find? (fun x => x.user_id == uid) = none)
    (hu : ws.Pairwise (fun a b => a.user_id ≠ b.user_id)) :
    (ws ++ [w]).Pairwise (fun a b => a.user_id ≠ b.user_id) := by
  rw [List.pairwise_append]
  refine ⟨hu, by simp, fun a ha b hb => ?_⟩
  obtain rfl : b = w := by simpa using hb
  have := List.find?_eq_none.mp hn a ha
  rw [hwid]
  simpa using this

lemma nonneg_append_wallet {ws : List Wallet} {w : Wallet}
    (h : ∀ x ∈ ws, 0 ≤ x.balance) (hw : 0 ≤ w.balance) :
    ∀ x ∈ ws ++ [w], 0 ≤ x.balance := by
  intro x hx
  rcases List.mem_append.mp hx with hx | hx
  · exact h x hx
  · obtain rfl : x = w := by simpa using hx
    exact hw

/-! Facts about get_or_create_wallet. -/

lemma gocw_find?_self (db : DB) (u : Nat) :
    (get_or_create_wallet db u).2.wallets.find? (fun w => w.user_id == u) =
      some (get_or_create_wallet db u).1 := by
  unfold get_or_create_wallet
  cases hf : db.wallets.find? (fun w => w.user_id == u) with
  | some w => simpa using hf
  | none => simp [List.find?_append, hf]

lemma gocw_nonneg {db : DB} {u : Nat} (h : WalletsNonneg db) :
    WalletsNonneg (get_or_create_wallet db u).2 := by
  unfold get_or_create_wallet
  cases hf : db.wallets.find? (fun w => w.user_id == u) with
  | some w => exact h
  | none => exact nonneg_append_wallet h (by norm_num)

lemma gocw_unique {db : DB} {u : Nat} (h : UniqueWallets db) :
    UniqueWallets (get_or_create_wallet db u).2 := by
  unfold get_or_create_wallet
  cases hf : db.wallets.find? (fun w => w.user_id == u) with
  | some w => exact h
  | none => exact unique_append_wallet rfl hf h

lemma gocw_wallet_uid (db : DB) (u : Nat) : (get_or_create_wallet db u).1.user_id = u := by
  unfold get_or_create_wallet
  cases hf : db.wallets.find? (fun w => w.user_id == u) with
  | some w => simpa using List.find?_some hf
  | none => rfl

/-! Preservation of the wallet invariants by each request. -/

lemma purchase_tokens_inv (db : DB) (u : Nat) (pkg : String)
    (hu : UniqueWallets db) (h : WalletsNonneg db) :
    UniqueWallets (purchase_tokens db u pkg).2 ∧ WalletsNonneg (purchase_tokens db u pkg).2 := by
  unfold purchase_tokens
  cases htp : tokenPackage pkg with
  | none => exact ⟨hu, h⟩
  | some tokens =>
    dsimp only
    constructor
    · exact unique_updateWallets (fun w => rfl) (gocw_unique hu)
    · refine nonneg_updateWallets (gocw_nonneg h) (fun w hw hbw _ => ?_)
      dsimp only
      positivity

lemma beatpax_download_inv (db : DB) (u b n : Nat)
    (hu : UniqueWallets db) (h : WalletsNonneg db) :
    UniqueWallets (beatpax_download db u b n).2 ∧ WalletsNonneg (beatpax_download db u b n).2 := by
  unfold beatpax_download
  cases hbeat : db.beats.find? (fun x => x.id == b) with
  | none => exact ⟨hu, h⟩
  | some beat =>
    dsimp only
    by_cases hact : beat.is_active = false
    · rw [if_pos hact]; exact ⟨hu, h⟩
    · rw [if_neg hact]
      cases hlib : db.library.find? (fun e => e.user_id == u && e.beat_id == b) with
      | some e => exact ⟨hu, h⟩
      | none =>
        dsimp only
        by_cases hbal : (get_or_create_wallet db u).1.balance < ((1 : Nat) : Int)
        · rw [if_pos hbal]
          exact ⟨gocw_unique hu, gocw_nonneg h⟩
        · rw [if_neg hbal]
          have hu3 : UniqueWallets (get_or_create_wallet db u).2 := gocw_unique hu
          have h3 : ∀ w ∈ updateWallets (get_or_create_wallet db u).2.wallets u
              (fun w => { w with balance := w.balance - ((1 : Nat) : Int),
                                 total_spent := w.total_spent + 1 }), 0 ≤ w.balance := by
            refine nonneg_updateWallets (gocw_nonneg h) (fun w hw hbw hid => ?_)
            have hw0 := eq_of_find?_unique hu3 (gocw_find?_self db u) w hw hid
            rw [hw0]
            dsimp only
            omega
          refine ⟨?_, ?_⟩
          · refine unique_updateWallets (fun w => rfl) (gocw_unique ?_)
            exact unique_updateWallets (fun w => rfl) hu3
          · refine nonneg_updateWallets (gocw_nonneg ?_) (fun w hw hbw _ => ?_)
            · exact h3
            · dsimp only
              positivity

lemma download_curated_pack_inv (db : DB) (sc : String) (req : List Nat) (auth : Option Nat)
    (hu : UniqueWallets db) (h : WalletsNonneg db) :
    UniqueWallets (download_curated_pack db sc req auth).2 ∧
      WalletsNonneg (download_curated_pack db sc req auth).2 := by
  unfold download_curated_pack curatedWallet
  cases hpack : db.curated_packs.find? (fun p => p.share_code == sc && p.is_active) with
  | none => exact ⟨hu, h⟩
  | some pack =>
    dsimp only
    by_cases hemp : (curatedTrackIds db pack.id req).isEmpty
    · rw [if_pos hemp]; exact ⟨hu, h⟩
    · rw [if_neg hemp]
      by_cases hfree : pack.is_free = true
      · rw [if_pos hfree]; exact ⟨hu, h⟩
      · rw [if_neg hfree]
        cases auth with
        | none => exact ⟨hu, h⟩
        | some uid =>
          dsimp only
          by_cases hown : (unownedOf db uid (curatedTrackIds db pack.id req)).isEmpty
          · rw [if_pos hown]; exact ⟨hu, h⟩
          · rw [if_neg hown]
            cases hwf : db.wallets.find? (fun w => w.user_id == uid) with
            | some w0 =>
              dsimp only
              by_cases hbal : w0.balance <
                  ((unownedOf db uid (curatedTrackIds db pack.id req)).length : Int)
              · rw [if_pos hbal]; exact ⟨hu, h⟩
              · rw [if_neg hbal]
                refine ⟨unique_updateWallets (fun w => rfl) hu, ?_⟩
                refine nonneg_updateWallets h (fun w hw hbw hid => ?_)
                have hw0 := eq_of_find?_unique hu hwf w hw hid
                rw [hw0]
                dsimp only
                omega
            | none =>
              dsimp only
              by_cases hbal : ((50 : Int) <
                  ((unownedOf db uid (curatedTrackIds db pack.id req)).length : Int))
              · rw [if_pos hbal]; exact ⟨hu, h⟩
              · rw [if_neg hbal]
                refine ⟨unique_append_wallet rfl hwf hu, nonneg_append_wallet h ?_⟩
                dsimp only
                omega

lemma step_inv (db : DB) (op : Op) (hu : UniqueWallets db) (h : WalletsNonneg db) :
    UniqueWallets (step db op) ∧ WalletsNonneg (step db op) := by
  cases op with
  | beatDownload u b n => exact beatpax_download_inv db u b n hu h
  | curatedDownload sc req auth => exact download_curated_pack_inv db sc req auth hu h
  | tokenPurchase u pkg => exact purchase_tokens_inv db u pkg hu h

lemma run_inv (ops : List Op) : ∀ db : DB, UniqueWallets db → WalletsNonneg db →
    UniqueWallets (run db ops) ∧ WalletsNonneg (run db ops) := by
  induction ops with
  | nil => exact fun db hu h => ⟨hu, h⟩
  | cons op t ih =>
    intro db hu h
    have hs := step_inv db op hu h
    exact ih (step db op) hs.1 hs.2

lemma gocw_of_find?_some {db : DB} {u : Nat} {w : Wallet}
    (h : db.wallets.find? (fun x => x.user_id == u) = some w) :
    get_or_create_wallet db u = (w, db) := by
  unfold get_or_create_wallet
  rw [h]

/-! Branch characterisations of download_curated_pack. -/

lemma unownedOf_nil (db : DB) (u : Nat) : unownedOf db u [] = [] := rfl

lemma find?_updateWallets_debit (ws : List Wallet) (uid c : Nat) (w0 : Wallet)
    (h : ws.find? (fun w => w.user_id == uid) = some w0) :
    (updateWallets ws uid
        (fun w => { w with balance := w.balance - (c : Int),
                           total_spent := w.total_spent + c })).find?
      (fun w => w.user_id == uid) =
    some { w0 with balance := w0.balance - (c : Int), total_spent := w0.total_spent + c } := by
  apply updateWallets_find?_self _ h
  intro w
  rfl

lemma find?_updateWallets_debit_other (ws : List Wallet) (uid uid2 c : Nat) (w0 : Wallet)
    (hne : w0.user_id ≠ uid)
    (h : ws.find? (fun w => w.user_id == uid2) = some w0) :
    (updateWallets ws uid
        (fun w => { w with balance := w.balance - (c : Int),
                           total_spent := w.total_spent + c })).find?
      (fun w => w.user_id == uid2) = some w0 := by
  apply updateWallets_find?_other _ hne h
  intro w
  rfl

lemma find?_updateWallets_credit (ws : List Wallet) (uid c : Nat) (w0 : Wallet)
    (h : ws.find? (fun w => w.user_id == uid) = some w0) :
    (updateWallets ws uid
        (fun w => { w with balance := w.balance + (c : Int),
                           total_earned := w.total_earned + c })).find?
      (fun w => w.user_id == uid) =
    some { w0 with balance := w0.balance + (c : Int), total_earned := w0.total_earned + c } := by
  apply updateWallets_find?_self _ h
  intro w
  rfl

lemma find?_updateWallets_credit_other (ws : List Wallet) (uid uid2 c : Nat) (w0 : Wallet)
    (hne : w0.user_id ≠ uid)
    (h : ws.find? (fun w => w.user_id == uid2) = some w0) :
    (updateWallets ws uid
        (fun w => { w with balance := w.balance + (c : Int),
                           total_earned := w.total_earned + c })).find?
      (fun w => w.user_id == uid2) = some w0 := by
  apply updateWallets_find?_other _ hne h
  intro w
  rfl

lemma curatedWallet_uid (db : DB) (u : Nat) : (curatedWallet db u).user_id = u := by
  unfold curatedWallet
  cases hf : db.wallets.find? (fun w => w.user_id == u) with
  | some w => simpa using List.find?_some hf
  | none => rfl

lemma curated_paid_spec (db : DB) (sc : String) (req : List Nat) (u : Nat) (pack : CuratedPack)
    (hpack : db.curated_packs.find? (fun p => p.share_code == sc && p.is_active) = some pack)
    (hfree : pack.is_free = false)
    (hne : (unownedOf db u (curatedTrackIds db pack.id req)).isEmpty = false)
    (hbal : ¬ (curatedWallet db u).balance <
        ((unownedOf db u (curatedTrackIds db pack.id req)).length : Int)) :
    download_curated_pack db sc req (some u) =
      (.purchased (unownedOf db u (curatedTrackIds db pack.id req)).length
                  (unownedOf db u (curatedTrackIds db pack.id req)).length
                  ((curatedWallet db u).balance -
                    ((unownedOf db u (curatedTrackIds db pack.id req)).length : Int)),
       { db with
         wallets :=
           match db.wallets.find? (fun w => w.user_id == u) with
           | some _ => updateWallets db.wallets u
               (fun w => { w with
                 balance := w.balance -
                   ((unownedOf db u (curatedTrackIds db pack.id req)).length : Int),
                 total_spent := w.total_spent +
                   (unownedOf db u (curatedTrackIds db pack.id req)).length })
           | none => db.wallets ++
               [{ curatedWallet db u with
                  balance := (curatedWallet db u).balance -
                    ((unownedOf db u (curatedTrackIds db pack.id req)).length : Int),
                  total_spent := (curatedWallet db u).total_spent +
                    (unownedOf db u (curatedTrackIds db pack.id req)).length }],
         library := db.library ++ (unownedOf db u (curatedTrackIds db pack.id req)).map
           (fun tid => ({ user_id := u, beat_id := tid, tokens_spent := 1,
                          downloaded_at := none, download_count := 0 } : LibraryEntry)),
         transactions := db.transactions ++ (unownedOf db u (curatedTrackIds db pack.id req)).map
           (fun tid => ({ user_id := u, transaction_type := "spend", amount := -1,
                          balance_after := (curatedWallet db u).balance -
                            ((unownedOf db u (curatedTrackIds db pack.id req)).length : Int),
                          reference_type := some "curated_pack_download",
                          reference_id := some tid,
                          description := "Downloaded from curated pack: " ++ pack.name }
                        : Transaction)),
         curated_packs := bumpCuratedDownloads db.curated_packs pack.id }) := by
  have htr : (curatedTrackIds db pack.id req).isEmpty = false := by
    cases hids : curatedTrackIds db pack.id req with
    | nil =>
        rw [hids, unownedOf_nil] at hne
        exact absurd hne (by simp)
    | cons a t => rfl
  unfold download_curated_pack
  rw [hpack]
  dsimp only
  rw [if_neg (by simp [htr]), if_neg (by simp [hfree]), if_neg (by simp [hne]), if_neg hbal]

lemma curated_free_spec (db : DB) (sc : String) (req : List Nat) (auth : Option Nat)
    (pack : CuratedPack)
    (hpack : db.curated_packs.find? (fun p => p.share_code == sc && p.is_active) = some pack)
    (hfree : pack.is_free = true)
    (htr : (curatedTrackIds db pack.id req).isEmpty = false) :
    download_curated_pack db sc req auth =
      (.freeTracks ((db.beats.filter (fun b =>
          (curatedTrackIds db pack.id req).contains b.id && b.is_active)).map (fun b => b.id)),
       { db with curated_packs := bumpCuratedDownloads db.curated_packs pack.id }) := by
  unfold download_curated_pack
  rw [hpack]
  dsimp only
  rw [if_neg (by simp [htr]), if_pos hfree]

lemma bumpCuratedDownloads_find? {ps : List CuratedPack} {sc : String} {pack : CuratedPack}
    (hpack : ps.find? (fun p => p.share_code == sc && p.is_active) = some pack) :
    ((bumpCuratedDownloads ps pack.id).find? (fun p => p.share_code == sc && p.is_active)).map
      CuratedPack.download_count = some (pack.download_count + 1) := by
  rw [bumpCuratedDownloads]
  have hg : ∀ p : CuratedPack,
      ((fun p : CuratedPack => p.share_code == sc && p.is_active)
        (if p.id == pack.id then { p with download_count := p.download_count + 1 } else p)) =
      ((fun p : CuratedPack => p.share_code == sc && p.is_active) p) := by
    intro p
    by_cases hc : (p.id == pack.id) = true <;> simp [hc]
  rw [find?_map_pres hg, hpack, Option.map_some']
  simp

lemma eq_of_find?_beat_unique {bs : List Beat} {k : Nat} {b0 : Beat}
    (hu : bs.Pairwise (fun x y => x.id ≠ y.id))
    (hf : bs.find? (fun x => x.id == k) = some b0) :
    ∀ x ∈ bs, x.id = k → x = b0 := by
  induction bs with
  | nil => simp at hf
  | cons a t ih =>
    rw [List.pairwise_cons] at hu
    intro x hx hxid
    rcases List.mem_cons.mp hx with rfl | hxt
    · rw [List.find?_cons_of_pos _ (by simp [hxid])] at hf
      exact Option.some.inj hf
    · by_cases hpa : ((fun y : Beat => y.id == k) a) = true
      · rw [@List.find?_cons_of_pos Beat (fun y => y.id == k) a t hpa] at hf
        obtain rfl := Option.some.inj hf
        exact absurd hxid (fun hh => hu.1 x hxt (by simp only [beq_iff_eq] at hpa; rw [hpa, hh]))
      · rw [@List.find?_cons_of_neg Beat (fun y => y.id == k) a t hpa] at hf
        exact ih hu.2 hf x hxt hxid

/-- C1 (amended): on a paid curated-pack batch purchase with N unowned
items the buyer wallet is debited N tokens in one aggregated debit and N
per-item spend records are appended, but every one of those records
carries balance_after equal to the final post-debit balance (starting
balance minus N); the log does not show a running total. -/
theorem c1_curated_batch_balance_after_is_final_balance
    (db : DB) (sc : String) (req : List Nat) (u : Nat) (pack : CuratedPack)
    (hpack : db.curated_packs.find? (fun p => p.share_code == sc && p.is_active) = some pack)
    (hfree : pack.is_free = false)
    (hne : (unownedOf db u (curatedTrackIds db pack.id req)).isEmpty = false)
    (hbal : ¬ (curatedWallet db u).balance <
        ((unownedOf db u (curatedTrackIds db pack.id req)).length : Int)) :
    (download_curated_pack db sc req (some u)).1 =
      .purchased (unownedOf db u (curatedTrackIds db pack.id req)).length
                 (unownedOf db u (curatedTrackIds db pack.id req)).length
                 ((curatedWallet db u).balance -
                   ((unownedOf db u (curatedTrackIds db pack.id req)).length : Int)) ∧
    ((download_curated_pack db sc req (some u)).2.wallets.find?
        (fun w => w.user_id == u)).map Wallet.balance =
      some ((curatedWallet db u).balance -
        ((unownedOf db u (curatedTrackIds db pack.id req)).length : Int)) ∧
    (download_curated_pack db sc req (some u)).2.transactions.length =
      db.transactions.length + (unownedOf db u (curatedTrackIds db pack.id req)).length ∧
    ∀ tx ∈ (download_curated_pack db sc req (some u)).2.transactions.drop
        db.transactions.length,
      tx.transaction_type = "spend" ∧ tx.amount = -1 ∧
        tx.balance_after = (curatedWallet db u).balance -
          ((unownedOf db u (curatedTrackIds db pack.id req)).length : Int) := by
  rw [curated_paid_spec db sc req u pack hpack hfree hne hbal]
  refine ⟨rfl, ?_, ?_, ?_⟩
  · dsimp only
    cases hwf : db.wallets.find? (fun w => w.user_id == u) with
    | some w0 =>
        dsimp only
        rw [find?_updateWallets_debit db.wallets u
          (unownedOf db u (curatedTrackIds db pack.id req)).length w0 hwf, Option.map_some']
        have hcw : curatedWallet db u = w0 := by unfold curatedWallet; rw [hwf]
        rw [hcw]
    | none =>
        dsimp only
        rw [List.find?_append, hwf]
        rw [List.find?_cons_of_pos _ (by simp [curatedWallet_uid])]
        rfl
  · dsimp only
    rw [List.length_append, List.length_map]
  · dsimp only
    rw [List.drop_left]
    intro tx htx
    obtain ⟨tid, _, rfl⟩ := List.mem_map.mp htx
    exact ⟨rfl, rfl, rfl⟩

/-- C1 witness: the amended theorem applied to the sample database, a
two-track paid pack bought by user 7 from balance 50. -/
theorem c1_witness :
    (unownedOf sampleDB 7 (curatedTrackIds sampleDB 1 [])).isEmpty = false ∧
    (download_curated_pack sampleDB "c" [] (some 7)).1 =
      CuratedDownloadResult.purchased 2 2 48 := by
  have h := c1_curated_batch_balance_after_is_final_balance sampleDB "c" [] 7
    { id := 1, user_id := 9, name := "P", share_code := "c", is_free := false,
      view_count := 0, download_count := 0, is_active := true }
    (by decide) rfl (by decide) (by decide)
  exact ⟨by decide, h.1⟩

/-- C1 counterexample: with starting balance 50 and two unowned items the
first per-item spend record carries balance_after 48, not the 49 that a
sequential one-token running total would demand. -/
theorem c1_counterexample :
    (sampleDB.wallets.find? (fun w => w.user_id == 7)).map Wallet.balance = some 50 ∧
    ((download_curated_pack sampleDB "c" [] (some 7)).2.transactions.head?).map
        Transaction.balance_after = some 48 ∧
    ¬ ((48 : Int) = 50 - 1) := by decide

/-- C3 (amended): a paid curated-pack batch download that newly charges at
least one item increments the pack download counter by exactly one; the
all-items-already-owned success returns early without incrementing it. -/
theorem c3_paid_pack_counter_increment
    (db : DB) (sc : String) (req : List Nat) (u : Nat) (pack : CuratedPack)
    (hpack : db.curated_packs.find? (fun p => p.share_code == sc && p.is_active) = some pack)
    (hfree : pack.is_free = false)
    (hne : (unownedOf db u (curatedTrackIds db pack.id req)).isEmpty = false)
    (hbal : ¬ (curatedWallet db u).balance <
        ((unownedOf db u (curatedTrackIds db pack.id req)).length : Int)) :
    ((download_curated_pack db sc req (some u)).2.curated_packs.find?
        (fun p => p.share_code == sc && p.is_active)).map CuratedPack.download_count =
      some (pack.download_count + 1) := by
  rw [curated_paid_spec db sc req u pack hpack hfree hne hbal]
  dsimp only
  exact bumpCuratedDownloads_find? hpack

/-- C3 witness: the amended theorem applied to the sample database. -/
theorem c3_witness :
    (unownedOf sampleDB 7 (curatedTrackIds sampleDB 1 [])).isEmpty = false ∧
    ((download_curated_pack sampleDB "c" [] (some 7)).2.curated_packs.find?
        (fun p => p.share_code == "c" && p.is_active)).map CuratedPack.download_count =
      some 1 :=
  ⟨by decide,
   c3_paid_pack_counter_increment sampleDB "c" [] 7
     { id := 1, user_id := 9, name := "P", share_code := "c", is_free := false,
       view_count := 0, download_count := 0, is_active := true }
     (by decide) rfl (by decide) (by decide)⟩

/-- C3 counterexample: when every requested item is already owned the
endpoint succeeds with zero tracks added and the state (in particular the
pack download counter) is completely unchanged, so the counter is not
incremented on that successful download. -/
theorem c3_counterexample :
    download_curated_pack sampleOwnedDB "c" [] (some 7) =
      (CuratedDownloadResult.alreadyOwnedAll, sampleOwnedDB) ∧
    (sampleOwnedDB.curated_packs.find? (fun p => p.share_code == "c" && p.is_active)).map
      CuratedPack.download_count = some 0 := by decide

/-- C5 (confirmed): downloading a beat the buyer already owns returns the
already-owned outcome with zero charge and mutates nothing but the library
row of that (buyer, beat) pair, whose download counter is bumped and whose
download timestamp is refreshed; wallets, the transaction log and the beat
counters are untouched. -/
theorem c5_already_owned_no_ledger_mutation (db : DB) (u b now : Nat) (beat : Beat)
    (hbeat : db.beats.find? (fun x => x.id == b) = some beat)
    (hact : beat.is_active = true)
    (hown : (db.library.find? (fun e => e.user_id == u && e.beat_id == b)).isSome = true) :
    (beatpax_download db u b now).1 = .alreadyOwned beat.audio_url ∧
    (beatpax_download db u b now).2.wallets = db.wallets ∧
    (beatpax_download db u b now).2.transactions = db.transactions ∧
    (beatpax_download db u b now).2.beats = db.beats ∧
    (beatpax_download db u b now).2.library = bumpLibraryEntry db.library u b now := by
  obtain ⟨e, he⟩ := Option.isSome_iff_exists.mp hown
  unfold beatpax_download
  rw [hbeat]
  dsimp only
  rw [if_neg (by simp [hact]), he]
  exact ⟨rfl, rfl, rfl, rfl, rfl⟩

/-- C5 witness: the theorem applied to the sample state in which user 7
already owns beat 1. -/
theorem c5_witness :
    (beatpax_download sampleOwnedDB 7 1 99).1 = BeatDownloadResult.alreadyOwned "u1" ∧
    (beatpax_download sampleOwnedDB 7 1 99).2.wallets = sampleOwnedDB.wallets ∧
    (beatpax_download sampleOwnedDB 7 1 99).2.transactions = sampleOwnedDB.transactions := by
  have h := c5_already_owned_no_ledger_mutation sampleOwnedDB 7 1 99
    { id := 1, title := "a", creator_id := 5, sound_pack_id := none, audio_url := "u1",
      token_cost := 1, play_count := 0, download_count := 0, is_active := true }
    (by decide) rfl (by decide)
  exact ⟨h.1, h.2.1, h.2.2.1⟩

/-- C6 (confirmed): a single-beat purchase attempted with a balance below
the 1-token cost fails with the insufficient-tokens error carrying the
required amount and the available balance, and the returned state is
exactly the input state: no wallet, log, library or counter change. -/
theorem c6_insufficient_funds_applies_nothing (db : DB) (u b now : Nat) (beat : Beat) (w : Wallet)
    (hbeat : db.beats.find? (fun x => x.id == b) = some beat)
    (hact : beat.is_active = true)
    (hlib : db.library.find? (fun e => e.user_id == u && e.beat_id == b) = none)
    (hw : db.wallets.find? (fun x => x.user_id == u) = some w)
    (hbal : w.balance < 1) :
    beatpax_download db u b now = (.insufficientTokens 1 w.balance, db) := by
  unfold beatpax_download
  rw [hbeat]
  dsimp only
  rw [if_neg (by simp [hact]), hlib]
  dsimp only
  rw [gocw_of_find?_some hw]
  dsimp only
  rw [if_pos (by simpa using hbal)]

/-- C6 witness: the theorem applied to a buyer with balance 0. -/
theorem c6_witness :
    beatpax_download samplePoorDB 7 1 0 =
      (BeatDownloadResult.insufficientTokens 1 0, samplePoorDB) :=
  c6_insufficient_funds_applies_nothing samplePoorDB 7 1 0
    { id := 1, title := "a", creator_id := 5, sound_pack_id := none, audio_url := "u1",
      token_cost := 1, play_count := 0, download_count := 0, is_active := true }
    { user_id := 7, balance := 0, total_spent := 0, total_earned := 0 }
    (by decide) rfl (by decide) (by decide) (by decide)

/-- C7 (confirmed): on a successful single-beat purchase (distinct buyer
and creator, both wallets present) the buyer is debited exactly the
1-token cost and the creator is credited exactly max(1, floor(cost * 0.8))
tokens, which is 1; the two appended transactions record the same
amounts. -/
theorem c7_creator_share_and_buyer_debit (db : DB) (u b now : Nat) (beat : Beat) (w cw : Wallet)
    (hbeat : db.beats.find? (fun x => x.id == b) = some beat)
    (hact : beat.is_active = true)
    (hlib : db.library.find? (fun e => e.user_id == u && e.beat_id == b) = none)
    (hw : db.wallets.find? (fun x => x.user_id == u) = some w)
    (hcw : db.wallets.find? (fun x => x.user_id == beat.creator_id) = some cw)
    (hne : beat.creator_id ≠ u)
    (hbal : ¬ w.balance < 1) :
    (beatpax_download db u b now).1 = .purchased beat.audio_url 1 (w.balance - 1) ∧
    ((beatpax_download db u b now).2.wallets.find? (fun x => x.user_id == u)).map
      Wallet.balance = some (w.balance - 1) ∧
    ((beatpax_download db u b now).2.wallets.find?
        (fun x => x.user_id == beat.creator_id)).map Wallet.balance =
      some (cw.balance + ((max 1 (1 * 8 / 10) : Nat) : Int)) ∧
    (max 1 (1 * 8 / 10) : Nat) = 1 ∧
    (beatpax_download db u b now).2.transactions = db.transactions ++
      [{ user_id := u, transaction_type := "spend", amount := -1,
         balance_after := w.balance - 1, reference_type := some "beat_download",
         reference_id := some b, description := "Downloaded: " ++ beat.title },
       { user_id := beat.creator_id, transaction_type := "earn",
         amount := ((max 1 (1 * 8 / 10) : Nat) : Int),
         balance_after := cw.balance + ((max 1 (1 * 8 / 10) : Nat) : Int),
         reference_type := some "beat_sale", reference_id := some b,
         description := "Sale: " ++ beat.title }] := by
  have hwid : w.user_id = u := by simpa using List.find?_some hw
  have hcwid : cw.user_id = beat.creator_id := by simpa using List.find?_some hcw
  have hne2 : cw.user_id ≠ u := by rw [hcwid]; exact fun hh => hne hh
  have hne3 : ({ w with
      balance := w.balance - ((1 : Nat) : Int),
      total_spent := w.total_spent + 1 } : Wallet).user_id ≠ beat.creator_id := by
    dsimp only
    rw [hwid]
    exact fun hh => hne hh.symm
  have hd1 := find?_updateWallets_debit db.wallets u 1 w hw
  have hd2 := find?_updateWallets_debit_other db.wallets u beat.creator_id 1 cw hne2 hcw
  have hd3 := find?_updateWallets_credit_other
    (updateWallets db.wallets u
      (fun x => { x with balance := x.balance - ((1 : Nat) : Int),
                         total_spent := x.total_spent + 1 }))
    beat.creator_id u (max 1 (1 * 8 / 10))
    { w with balance := w.balance - ((1 : Nat) : Int), total_spent := w.total_spent + 1 }
    hne3 hd1
  have hd4 := find?_updateWallets_credit
    (updateWallets db.wallets u
      (fun x => { x with balance := x.balance - ((1 : Nat) : Int),
                         total_spent := x.total_spent + 1 }))
    beat.creator_id (max 1 (1 * 8 / 10)) cw hd2
  simp at hd1 hd2 hd3 hd4
  refine ⟨?_, ?_, ?_, by norm_num, ?_⟩ <;>
    simp [beatpax_download, get_or_create_wallet, hbeat, hact, hlib, hw, hd1, hd2, hd3, hd4,
      hbal]

/-- C7 witness: user 7 buys beat 1 from creator 5; buyer goes 50 to 49,
creator goes 3 to 4. -/
theorem c7_witness :
    (beatpax_download sampleTwoWalletDB 7 1 0).1 = BeatDownloadResult.purchased "u1" 1 49 ∧
    ((beatpax_download sampleTwoWalletDB 7 1 0).2.wallets.find?
        (fun x => x.user_id == 5)).map Wallet.balance = some 4 := by
  have h := c7_creator_share_and_buyer_debit sampleTwoWalletDB 7 1 0
    { id := 1, title := "a", creator_id := 5, sound_pack_id := none, audio_url := "u1",
      token_cost := 1, play_count := 0, download_count := 0, is_active := true }
    { user_id := 7, balance := 50, total_spent := 0, total_earned := 0 }
    { user_id := 5, balance := 3, total_spent := 0, total_earned := 0 }
    (by decide) rfl (by decide) (by decide) (by decide) (by decide) (by decide)
  refine ⟨?_, ?_⟩
  · have h1 := h.1
    norm_num at h1 ⊢
    exact h1
  · have h3 := h.2.2.1
    norm_num at h3 ⊢
    exact h3

/-- C9 (confirmed): a download of a free-flagged curated pack creates no
library (ownership) row, appends no transaction, leaves every wallet
untouched, and its outcome does not even depend on the wallet table (the
wallets are never read), whoever the downloader is; the only side effect
is one increment of the download counter of that pack. -/
theorem c9_free_pack_no_ledger_interaction (db : DB) (sc : String) (req : List Nat)
    (auth : Option Nat) (pack : CuratedPack)
    (hpack : db.curated_packs.find? (fun p => p.share_code == sc && p.is_active) = some pack)
    (hfree : pack.is_free = true)
    (htr : (curatedTrackIds db pack.id req).isEmpty = false) :
    (download_curated_pack db sc req auth).1 =
      .freeTracks ((db.beats.filter (fun b =>
        (curatedTrackIds db pack.id req).contains b.id && b.is_active)).map (fun b => b.id)) ∧
    (download_curated_pack db sc req auth).2.wallets = db.wallets ∧
    (download_curated_pack db sc req auth).2.transactions = db.transactions ∧
    (download_curated_pack db sc req auth).2.library = db.library ∧
    (download_curated_pack db sc req auth).2.beats = db.beats ∧
    ((download_curated_pack db sc req auth).2.curated_packs.find?
        (fun p => p.share_code == sc && p.is_active)).map CuratedPack.download_count =
      some (pack.download_count + 1) ∧
    ∀ ws : List Wallet,
      (download_curated_pack { db with wallets := ws } sc req auth).1 =
        (download_curated_pack db sc req auth).1 := by
  have hspec := curated_free_spec db sc req auth pack hpack hfree htr
  rw [hspec]
  refine ⟨rfl, rfl, rfl, rfl, rfl, bumpCuratedDownloads_find? hpack, ?_⟩
  intro ws
  have hpack2 : ({ db with wallets := ws } : DB).curated_packs.find?
      (fun p => p.share_code == sc && p.is_active) = some pack := hpack
  have hspec2 := curated_free_spec { db with wallets := ws } sc req auth pack hpack2 hfree htr
  rw [hspec2]
  rfl

/-- C9 witness: an authenticated download of the free sample pack returns
both tracks and changes neither wallets nor transactions nor library. -/
theorem c9_witness :
    (download_curated_pack sampleFreeDB "c" [] (some 7)).1 =
      CuratedDownloadResult.freeTracks [1, 2] ∧
    (download_curated_pack sampleFreeDB "c" [] (some 7)).2.wallets = sampleFreeDB.wallets ∧
    (download_curated_pack sampleFreeDB "c" [] (some 7)).2.library = sampleFreeDB.library := by
  have h := c9_free_pack_no_ledger_interaction sampleFreeDB "c" [] (some 7)
    { id := 1, user_id := 9, name := "P", share_code := "c", is_free := true,
      view_count := 0, download_count := 0, is_active := true }
    (by decide) rfl (by decide)
  exact ⟨h.1, h.2.1, h.2.2.2.1⟩

/-- C10 (confirmed): a soft-deleted beat that is still listed in a curated
pack is not filtered out of the paid path: an authenticated buyer who does
not own it is charged for it (it counts into the aggregated cost) and
receives a library row for it, while the free path returns only beats that
are still active. -/
theorem c10_paid_path_charges_inactive_tracks (db : DB) (sc : String) (req : List Nat)
    (u tid : Nat) (pack : CuratedPack) (beat : Beat)
    (hpack : db.curated_packs.find? (fun p => p.share_code == sc && p.is_active) = some pack)
    (htid : tid ∈ curatedTrackIds db pack.id req)
    (hbeat : db.beats.find? (fun x => x.id == tid) = some beat)
    (hinact : beat.is_active = false) :
    (pack.is_free = false →
      (db.library.find? (fun e => e.user_id == u && e.beat_id == tid)).isNone = true →
      ¬ (curatedWallet db u).balance <
          ((unownedOf db u (curatedTrackIds db pack.id req)).length : Int) →
      tid ∈ unownedOf db u (curatedTrackIds db pack.id req) ∧
      (∃ e ∈ (download_curated_pack db sc req (some u)).2.library,
          e.user_id = u ∧ e.beat_id = tid ∧ e.tokens_spent = 1) ∧
      (download_curated_pack db sc req (some u)).1 =
        .purchased (unownedOf db u (curatedTrackIds db pack.id req)).length
                   (unownedOf db u (curatedTrackIds db pack.id req)).length
                   ((curatedWallet db u).balance -
                     ((unownedOf db u (curatedTrackIds db pack.id req)).length : Int))) ∧
    (pack.is_free = true → UniqueBeatIds db →
      ∀ l, (download_curated_pack db sc req (some u)).1 = .freeTracks l → tid ∉ l) := by
  constructor
  · intro hfree hun hbal
    have hmem : tid ∈ unownedOf db u (curatedTrackIds db pack.id req) :=
      List.mem_filter.mpr ⟨htid, hun⟩
    have hne : (unownedOf db u (curatedTrackIds db pack.id req)).isEmpty = false := by
      cases hcase : unownedOf db u (curatedTrackIds db pack.id req) with
      | nil => rw [hcase] at hmem; simp at hmem
      | cons a t => rfl
    refine ⟨hmem, ?_, ?_⟩
    · rw [curated_paid_spec db sc req u pack hpack hfree hne hbal]
      refine ⟨{ user_id := u, beat_id := tid, tokens_spent := 1,
                downloaded_at := none, download_count := 0 }, ?_, rfl, rfl, rfl⟩
      exact List.mem_append_right _ (List.mem_map_of_mem _ hmem)
    · rw [curated_paid_spec db sc req u pack hpack hfree hne hbal]
  · intro hfree huniq l hl htl
    have htr : (curatedTrackIds db pack.id req).isEmpty = false := by
      cases hcase : curatedTrackIds db pack.id req with
      | nil => rw [hcase] at htid; simp at htid
      | cons a t => rfl
    rw [curated_free_spec db sc req (some u) pack hpack hfree htr] at hl
    dsimp only at hl
    obtain rfl := (CuratedDownloadResult.freeTracks.injEq _ _).mp hl.symm
    obtain ⟨x, hx, hxid⟩ := List.mem_map.mp htl
    have hxmem := (List.mem_filter.mp hx).1
    have hxp := (List.mem_filter.mp hx).2
    have hxact : x.is_active = true := by
      rw [Bool.and_eq_true] at hxp
      exact hxp.2
    have hxeq := eq_of_find?_beat_unique huniq hbeat x hxmem hxid
    rw [hxeq] at hxact
    rw [hinact] at hxact
    exact Bool.false_ne_true hxact

/-- C10 witness: in the paid sample state the soft-deleted beat 1 is in
the charged set and the purchase charges 2 tokens; in the free variant of
the same state the returned list [2] does not contain beat 1. -/
theorem c10_witness :
    (1 ∈ unownedOf sampleInactiveDB 7 (curatedTrackIds sampleInactiveDB 1 []) ∧
      (download_curated_pack sampleInactiveDB "c" [] (some 7)).1 =
        CuratedDownloadResult.purchased 2 2 48) ∧
    (1 : Nat) ∉ [2] := by
  have h := c10_paid_path_charges_inactive_tracks sampleInactiveDB "c" [] 7 1
    { id := 1, user_id := 9, name := "P", share_code := "c", is_free := false,
      view_count := 0, download_count := 0, is_active := true }
    { id := 1, title := "a", creator_id := 5, sound_pack_id := none, audio_url := "u1",
      token_cost := 1, play_count := 0, download_count := 0, is_active := false }
    (by decide) (by decide) (by decide) rfl
  have hfree := c10_paid_path_charges_inactive_tracks sampleFreeInactiveDB "c" [] 7 1
    { id := 1, user_id := 9, name := "P", share_code := "c", is_free := true,
      view_count := 0, download_count := 0, is_active := true }
    { id := 1, title := "a", creator_id := 5, sound_pack_id := none, audio_url := "u1",
      token_cost := 1, play_count := 0, download_count := 0, is_active := false }
    (by decide) (by decide) (by decide) rfl
  have ha := h.1 rfl (by decide) (by decide)
  exact ⟨⟨ha.1, ha.2.2⟩, hfree.2 rfl (by decide) [2] (by decide)⟩

/-- C2 (amended): after the track-delete endpoint soft-deletes a pack
track it rewrites the stored track_count column with a recount, so the
derived price of the updated pack equals the number of still-active child
tracks; the price is however read from that stored column whenever it is
non-zero (the fallback live count is only used at zero), and paths that
soft-delete children without the recount (pack delete) leave the price
stale. -/
theorem c2_delete_track_resyncs_price (db : DB) (u t pid : Nat) (track : Beat)
    (htrack : db.beats.find? (fun b => b.id == t) = some track)
    (hown : track.creator_id = u)
    (hpid : track.sound_pack_id = some pid)
    (hsp : (db.sound_packs.find? (fun p => p.id == pid)).isSome = true) :
    (delete_track db u t).1 = .deleted ∧
    ∀ p ∈ (delete_track db u t).2.sound_packs, p.id = pid →
      packCalculatedTokenCost (delete_track db u t).2 p =
        countActivePackTracks (delete_track db u t).2.beats pid := by
  obtain ⟨pk, hpk⟩ := Option.isSome_iff_exists.mp hsp
  unfold delete_track
  rw [htrack]
  dsimp only
  rw [if_neg (by simp [hown]), hpid]
  dsimp only
  rw [hpk]
  refine ⟨rfl, ?_⟩
  intro p hp hpidp
  dsimp only at hp
  rw [List.mem_map] at hp
  obtain ⟨p0, hp0, rfl⟩ := hp
  by_cases hc : (p0.id == pid) = true
  · rw [if_pos hc] at hpidp ⊢
    dsimp only at hpidp
    unfold packCalculatedTokenCost
    dsimp only
    split
    · rfl
    · rw [hpidp]
  · rw [if_neg hc] at hpidp
    exact absurd hpidp (by simpa using hc)

/-- C2 witness: deleting child beat 1 of the sample pack leaves the pack
price equal to the recounted single active track. -/
theorem c2_witness :
    (delete_track samplePackDB 5 1).1 = DeleteResult.deleted ∧
    ((delete_track samplePackDB 5 1).2.sound_packs.find? (fun p => p.id == 1)).map
      (fun p => packCalculatedTokenCost (delete_track samplePackDB 5 1).2 p) = some 1 := by
  have h := c2_delete_track_resyncs_price samplePackDB 5 1 1
    { id := 1, title := "a", creator_id := 5, sound_pack_id := some 1, audio_url := "u1",
      token_cost := 1, play_count := 0, download_count := 0, is_active := true }
    (by decide) rfl rfl (by decide)
  refine ⟨h.1, ?_⟩
  have hmem : ∀ p ∈ (delete_track samplePackDB 5 1).2.sound_packs, p.id = 1 →
      packCalculatedTokenCost (delete_track samplePackDB 5 1).2 p =
        countActivePackTracks (delete_track samplePackDB 5 1).2.beats 1 := h.2
  decide

/-- C2 counterexample: the admin content-delete endpoint soft-deletes one
child beat without the recount, after which the pack (still active) has
one active child track but its derived price still reads the stale stored
track_count 2 - the price is neither recomputed from the active children
on every read nor decreased by one by this soft delete. -/
theorem c2_counterexample :
    (admin_delete_beat samplePackDB 1).1 = DeleteResult.deleted ∧
    ((admin_delete_beat samplePackDB 1).2.sound_packs.find? (fun p => p.id == 1)).map
      (fun p => packCalculatedTokenCost (admin_delete_beat samplePackDB 1).2 p) = some 2 ∧
    countActivePackTracks (admin_delete_beat samplePackDB 1).2.beats 1 = 1 ∧
    ¬ ((2 : Nat) = 1) := by decide

/-- C8 (confirmed): get_or_create_wallet is idempotent - after one call
has produced a wallet, running it again for the same user returns the very
same wallet and the very same state, so a repeated lazy get neither grants
a second bonus nor touches the balance or log. -/
theorem c8_get_or_create_wallet_idempotent (db : DB) (u : Nat) :
    get_or_create_wallet (get_or_create_wallet db u).2 u =
      ((get_or_create_wallet db u).1, (get_or_create_wallet db u).2) :=
  gocw_of_find?_some (gocw_find?_self db u)

/-- C4 (confirmed): starting from a state whose wallet table is keyed
uniquely by user and holds no negative balance, any sequence of single
downloads, curated-pack downloads and token purchases keeps every wallet
balance non-negative. -/
theorem c4_wallet_balance_never_negative (db : DB) (ops : List Op)
    (hu : UniqueWallets db) (h0 : WalletsNonneg db) :
    WalletsNonneg (run db ops) :=
  (run_inv ops db hu h0).2

/-- C4 witness: a concrete four-request run (download, pack download,
token purchase, re-download) from the two-wallet sample state. -/
theorem c4_witness :
    UniqueWallets sampleTwoWalletDB ∧ WalletsNonneg sampleTwoWalletDB ∧
    WalletsNonneg (run sampleTwoWalletDB
      [Op.beatDownload 7 1 0, Op.curatedDownload "c" [] (some 7),
       Op.tokenPurchase 7 "100", Op.beatDownload 7 1 1]) :=
  ⟨by decide, by decide,
   c4_wallet_balance_never_negative sampleTwoWalletDB
     [Op.beatDownload 7 1 0, Op.curatedDownload "c" [] (some 7),
      Op.tokenPurchase 7 "100", Op.beatDownload 7 1 1]
     (by decide) (by decide)⟩

end Beatpax
